import Mathlib

set_option maxRecDepth 8000

/- Verification of the Gowershell line-oriented command executor.

   Shallow embedding of src/main.go and src/type.go:
   * Go byte slices ([]byte) are `List Nat` with entries below 256.
   * Go strings holding text (commands, debug traces, error text) are
     `List Char`; a Go string produced from raw bytes stays `List Nat`
     (a Go string is an arbitrary byte sequence).
   * The subprocess boundary (exec.Cmd.CombinedOutput and the wall clock)
     is an explicit `SubResult` input: combined output bytes, the optional
     error value, and the measured duration.  Everything the program
     computes from that boundary is embedded as pure functions. -/

/-- Go text strings are modelled as lists of characters. -/
abbrev GoStr := List Char

/-- Coerces a Lean string literal into the `GoStr` model. -/
def str (s : String) : GoStr := s.data

/-- Models fmt %t formatting of a Go bool. -/
def boolStr (b : Bool) : GoStr := if b then str "true" else str "false"

/-- Models fmt %d formatting of a Go int64. -/
def intStr (i : Int) : GoStr := (toString i).data

/- ---------------------------------------------------------------------
   Output normalizer: isUTF16 and decodeUTF16 (src/main.go lines 155-242)
   --------------------------------------------------------------------- -/

/-- Models the nullCount loop of isUTF16 (src/main.go lines 191-196):
counts the bytes at odd 0-indexed positions that are zero, consuming the
list two bytes at a time exactly as the loop `for i := 1; i < len; i += 2`
reads data[1], data[3], ... . -/
def oddNullCount : List Nat → Nat
  | _ :: b :: rest => (if b = 0 then 1 else 0) + oddNullCount rest
  | _ => 0

/-- Models isUTF16 (src/main.go lines 175-202).  The BOM checks guard on
len(data) >= 2 and inspect data[0], data[1].  The heuristic branch fires
when the length is even and greater than 10 and compares
float64(nullCount)/float64(len/2) > 0.3; for the machine integers involved
this float64 comparison coincides with the exact rational comparison
nullCount/(len/2) > 3/10, embedded as 3*(len/2) < 10*nullCount. -/
def isUTF16 (data : List Nat) : Bool :=
  if 2 ≤ data.length ∧ data.getD 0 0 = 0xFF ∧ data.getD 1 0 = 0xFE then true
  else if 2 ≤ data.length ∧ data.getD 0 0 = 0xFE ∧ data.getD 1 0 = 0xFF then true
  else if data.length % 2 = 0 ∧ 10 < data.length then
    decide (3 * (data.length / 2) < 10 * oddNullCount data)
  else false

/-- Models the BOM handling of decodeUTF16 (src/main.go lines 204-219):
returns (start, littleEndian) exactly as the function computes them before
slicing data[start:]. -/
def bomInfo (data : List Nat) : Nat × Bool :=
  match data with
  | a :: b :: _ =>
    if a = 0xFF ∧ b = 0xFE then (2, true)
    else if a = 0xFE ∧ b = 0xFF then (2, false)
    else (0, true)
  | _ => (0, true)

/-- Models the byte-pairing loop of decodeUTF16 (src/main.go lines 230-237):
utf16Data[i] = data[2i] | data[2i+1]<<8 when little-endian, the mirrored
pairing when big-endian. -/
def pairUnits (le : Bool) : List Nat → List Nat
  | a :: b :: rest => (if le then a + b * 256 else b + a * 256) :: pairUnits le rest
  | _ => []

/-- Models unicode/utf16.Decode from the Go standard library, called at
src/main.go line 240: a non-surrogate unit decodes to itself, a high
surrogate followed by a low surrogate decodes to the combined code point
consuming both, anything else decodes to U+FFFD consuming one unit. -/
def utf16Decode : List Nat → List Nat
  | [] => []
  | [r] => if r < 0xD800 ∨ 0xE000 ≤ r then [r] else [0xFFFD]
  | r :: r2 :: rest =>
    if r < 0xD800 ∨ 0xE000 ≤ r then r :: utf16Decode (r2 :: rest)
    else if r < 0xDC00 ∧ 0xDC00 ≤ r2 ∧ r2 < 0xE000 then
      (0x10000 + (r - 0xD800) * 0x400 + (r2 - 0xDC00)) :: utf16Decode rest
    else 0xFFFD :: utf16Decode (r2 :: rest)

/-- Models Go string(r) for a single rune, i.e. unicode/utf8 encoding of a
code point: surrogate code points and values above U+10FFFF encode as the
replacement character U+FFFD (bytes EF BF BD). -/
def utf8EncodeRune (r : Nat) : List Nat :=
  if r < 0x80 then [r]
  else if r < 0x800 then [0xC0 + r / 0x40, 0x80 + r % 0x40]
  else if 0xD800 ≤ r ∧ r < 0xE000 then [0xEF, 0xBF, 0xBD]
  else if r < 0x10000 then [0xE0 + r / 0x1000, 0x80 + r / 0x40 % 0x40, 0x80 + r % 0x40]
  else if r < 0x110000 then
    [0xF0 + r / 0x40000, 0x80 + r / 0x1000 % 0x40, 0x80 + r / 0x40 % 0x40, 0x80 + r % 0x40]
  else [0xEF, 0xBF, 0xBD]

/-- Models Go string(runes) at src/main.go line 241: UTF-8 encoding of a
rune sequence. -/
def utf8Encode : List Nat → List Nat
  | [] => []
  | r :: rest => utf8EncodeRune r ++ utf8Encode rest

/-- Models decodeUTF16 (src/main.go lines 204-242): strip a leading BOM
fixing endianness, fall back to plain string conversion of the remaining
bytes when their count is odd, otherwise pair bytes into UTF-16 code
units, decode them and UTF-8 encode the resulting runes (the byte content
of the returned Go string). -/
def decodeUTF16 (data : List Nat) : List Nat :=
  let start := (bomInfo data).1
  let le := (bomInfo data).2
  let d := data.drop start
  if d.length % 2 ≠ 0 then d
  else utf8Encode (utf16Decode (pairUnits le d))

/- ---------------------------------------------------------------------
   strings.TrimSpace model (called at src/main.go line 136 and
   src/type.go line 131)
   --------------------------------------------------------------------- -/

/-- Models unicode.IsSpace from the Go standard library: the Latin-1 space
characters and the White_Space code points above U+00FF. -/
def isSpaceRune (r : Nat) : Bool :=
  if r < 0x100 then
    decide (r = 0x9 ∨ r = 0xA ∨ r = 0xB ∨ r = 0xC ∨ r = 0xD ∨ r = 0x20 ∨ r = 0x85 ∨ r = 0xA0)
  else
    decide (r = 0x1680 ∨ (0x2000 ≤ r ∧ r ≤ 0x200A) ∨ r = 0x2028 ∨ r = 0x2029 ∨
      r = 0x202F ∨ r = 0x205F ∨ r = 0x3000)

/-- Models utf8.RuneStart: a byte that is not a UTF-8 continuation byte. -/
def runeStart (b : Nat) : Bool := decide (b < 0x80 ∨ 0xC0 ≤ b)

/-- Models unicode/utf8.DecodeRune: decodes the first rune of a byte list,
returning the rune and its byte width; invalid or incomplete input yields
(0xFFFD, 1), empty input (0xFFFD, 0). -/
def utf8DecodeRune (p : List Nat) : Nat × Nat :=
  match p with
  | [] => (0xFFFD, 0)
  | b0 :: t =>
    if b0 < 0x80 then (b0, 1)
    else if b0 < 0xC2 ∨ 0xF4 < b0 then (0xFFFD, 1)
    else
      let sz := if b0 < 0xE0 then 2 else if b0 < 0xF0 then 3 else 4
      let lo := if b0 = 0xE0 then 0xA0 else if b0 = 0xF0 then 0x90 else 0x80
      let hi := if b0 = 0xED then 0x9F else if b0 = 0xF4 then 0x8F else 0xBF
      match t with
      | [] => (0xFFFD, 1)
      | b1 :: t2 =>
        if b1 < lo ∨ hi < b1 then (0xFFFD, 1)
        else if sz = 2 then ((b0 - 0xC0) * 0x40 + (b1 - 0x80), 2)
        else
          match t2 with
          | [] => (0xFFFD, 1)
          | b2 :: t3 =>
            if b2 < 0x80 ∨ 0xBF < b2 then (0xFFFD, 1)
            else if sz = 3 then
              ((b0 - 0xE0) * 0x1000 + (b1 - 0x80) * 0x40 + (b2 - 0x80), 3)
            else
              match t3 with
              | [] => (0xFFFD, 1)
              | b3 :: _ =>
                if b3 < 0x80 ∨ 0xBF < b3 then (0xFFFD, 1)
                else ((b0 - 0xF0) * 0x40000 + (b1 - 0x80) * 0x1000 +
                  (b2 - 0x80) * 0x40 + (b3 - 0x80), 4)

/-- Models unicode/utf8.DecodeLastRune: scans back at most UTFMax bytes for
a rune start, forward-decodes from there and rejects the result unless it
ends exactly at the end of the buffer. -/
def utf8DecodeLastRune (p : List Nat) : Nat × Nat :=
  if p.length = 0 then (0xFFFD, 0)
  else
    let e := p.length
    let last := p.getD (e - 1) 0
    if last < 0x80 then (last, 1)
    else
      let lim := e - 4
      let found := ((List.range (e - 1)).filter
        (fun i => decide (lim ≤ i) && runeStart (p.getD i 0))).getLast?
      let start := match found with
        | some i => i
        | none => if lim = 0 then 0 else lim - 1
      let pr := utf8DecodeRune (p.drop start)
      if start + pr.2 = e then pr else (0xFFFD, 1)

/-- Fuel-driven loop of strings.TrimLeftFunc(s, unicode.IsSpace): drop the
leading rune while it is white space.  Each step drops at least one byte,
so fuel s.length suffices. -/
def trimLeftAux : Nat → List Nat → List Nat
  | 0, s => s
  | fuel + 1, s =>
    let pr := utf8DecodeRune s
    if pr.2 = 0 then s
    else if isSpaceRune pr.1 then trimLeftAux fuel (s.drop pr.2) else s

/-- Models strings.TrimLeftFunc(s, unicode.IsSpace). -/
def trimLeftUni (s : List Nat) : List Nat := trimLeftAux s.length s

/-- Fuel-driven loop of strings.TrimRightFunc(s, unicode.IsSpace): drop the
trailing rune while it is white space. -/
def trimRightAux : Nat → List Nat → List Nat
  | 0, s => s
  | fuel + 1, s =>
    let pr := utf8DecodeLastRune s
    if pr.2 = 0 then s
    else if isSpaceRune pr.1 then trimRightAux fuel (s.take (s.length - pr.2)) else s

/-- Models strings.TrimRightFunc(s, unicode.IsSpace). -/
def trimRightUni (s : List Nat) : List Nat := trimRightAux s.length s

/-- Models strings.TrimSpace: trim white-space runes from both ends.  The
Go implementation special-cases a bytewise ASCII fast path and delegates
to TrimFunc/TrimRightFunc on the first non-ASCII byte; that is an
optimization of exactly this left-then-right rune trimming. -/
def goTrimSpace (s : List Nat) : List Nat := trimRightUni (trimLeftUni s)

/- ---------------------------------------------------------------------
   Dispatcher (src/main.go lines 21-153)
   --------------------------------------------------------------------- -/

/-- Models the Request struct of src/main.go lines 21-27. -/
structure Request where
  command : GoStr
  type : GoStr
  headless : Bool
  verbose : Bool
  persistWindow : Bool
  deriving DecidableEq, Repr

/-- Models the Response struct of src/main.go lines 29-34.  The output
field carries the bytes of the Go string; error and debug are the empty
string when unset (Go zero values, omitted by omitempty on the wire). -/
structure Response where
  output : List Nat
  error : GoStr
  duration : Int
  debug : GoStr
  deriving DecidableEq, Repr

/-- Models the exec.Cmd data the dispatcher configures: the argument list
and the syscall.SysProcAttr window attributes. -/
structure ProcessSpec where
  args : List GoStr
  hideWindow : Bool
  creationFlags : Nat
  deriving DecidableEq, Repr

/-- Models the subprocess boundary: what cmd.CombinedOutput and the wall
clock return for one execution. -/
structure SubResult where
  output : List Nat
  err : Option GoStr
  durationMs : Int
  deriving DecidableEq, Repr

/-- CREATE_NEW_CONSOLE constant of src/main.go line 18. -/
def CREATE_NEW_CONSOLE : Nat := 0x00000010

/-- Single-quote character, used in the WSL headed-mode command suffix. -/
def quoteChar : GoStr := [Char.ofNat 39]

/-- Suffix appended to the command for headed WSL mode
(src/main.go line 99). -/
def wslHeadedSuffix : GoStr :=
  str "; read -p " ++ quoteChar ++ str "Press Enter to close..." ++ quoteChar

/-- Models the process construction of executeCommand
(src/main.go lines 70-123): the interpreter switch, then the
window-visibility branch which on headed mode rebuilds the invocation per
host OS and type.  goos is runtime.GOOS. -/
def buildSpec (goos : String) (req : Request) : ProcessSpec :=
  if req.headless then
    { args :=
        if req.type = str "powershell" ∨ req.type = str "ps" then
          [str "powershell", str "-Command", req.command]
        else if req.type = str "wsl" then
          [str "wsl", str "--", str "bash", str "-c", req.command]
        else
          [str "cmd", str "/C", req.command],
      hideWindow := true, creationFlags := 0 }
  else if goos = "windows" then
    { args :=
        if req.type = str "powershell" ∨ req.type = str "ps" then
          [str "powershell", str "-NoExit", str "-Command", req.command]
        else if req.type = str "wsl" then
          [str "cmd", str "/C", str "start", str "wsl", str "--", str "bash", str "-c",
            req.command ++ wslHeadedSuffix]
        else
          [str "cmd", str "/C", str "start", str "cmd", str "/K", req.command],
      hideWindow := false, creationFlags := CREATE_NEW_CONSOLE }
  else
    { args :=
        if req.type = str "powershell" ∨ req.type = str "ps" then
          [str "pwsh", str "-Command", req.command]
        else
          [str "bash", str "-c", req.command],
      hideWindow := false, creationFlags := 0 }

/-- Models processOutput (src/main.go lines 155-173), returning the
processed Go string bytes together with the debug builder contents. -/
def processOutput (data : List Nat) (verbose : Bool) (debugInfo : GoStr) : List Nat × GoStr :=
  if data.length = 0 then ([], debugInfo)
  else if isUTF16 data then
    (decodeUTF16 data,
      if verbose then debugInfo ++ str "UTF-16 encoding detected, decoding...\n" else debugInfo)
  else
    (data,
      if verbose then debugInfo ++ str "Using standard UTF-8 processing\n" else debugInfo)

/-- First two debug lines of executeCommand (src/main.go lines 66-67). -/
def debugHeader (req : Request) : GoStr :=
  str "Executing command: " ++ req.command ++ str "\n" ++
  str "Type: " ++ req.type ++ str ", Headless: " ++ boolStr req.headless ++
  str ", PersistWindow: " ++ boolStr req.persistWindow ++ str "\n"

/-- Mode debug line of executeCommand (src/main.go lines 88 and 121). -/
def modeLine (headless : Bool) : GoStr :=
  if headless then str "Running in headless mode (window hidden)\n"
  else str "Running in headed mode (new window created)\n"

/-- Argument-list debug line of executeCommand (src/main.go line 126),
fmt %v formatting of a Go string slice. -/
def argsLine (spec : ProcessSpec) : GoStr :=
  str "Command args: [" ++ List.intercalate (str " ") spec.args ++ str "]\n"

/-- Models executeCommand (src/main.go lines 60-153) given the subprocess
boundary result, returning the Response and the final contents of the
debugInfo strings.Builder. -/
def executeCommandAux (goos : String) (req : Request) (sub : SubResult) : Response × GoStr :=
  let d1 := if req.verbose then debugHeader req else []
  let spec := buildSpec goos req
  let d2 := if req.verbose then d1 ++ modeLine req.headless else d1
  let d3 := if req.verbose then d2 ++ argsLine spec else d2
  let pr := processOutput sub.output req.verbose d3
  let errStr := match sub.err with
    | some e => e
    | none => []
  let d5 := match sub.err with
    | some e =>
      if req.verbose then pr.2 ++ str "Command failed with error: " ++ e ++ str "\n" else pr.2
    | none => pr.2
  let d6 := if req.verbose then
      d5 ++ str "Execution completed in " ++ intStr sub.durationMs ++ str "ms\n"
    else d5
  ({ output := goTrimSpace pr.1, error := errStr, duration := sub.durationMs,
     debug := if req.verbose then d6 else [] }, d6)

/-- The Response of executeCommand (src/main.go lines 60-153). -/
def executeCommand (goos : String) (req : Request) (sub : SubResult) : Response :=
  (executeCommandAux goos req sub).1

/- ---------------------------------------------------------------------
   Request parsing (src/main.go lines 44-51)
   --------------------------------------------------------------------- -/

/-- A syntactically valid JSON request line, field by field: `none` means
the field is absent from the object. -/
structure JSONReq where
  command : Option GoStr
  type : Option GoStr
  headless : Option Bool
  verbose : Option Bool
  persistWindow : Option Bool
  deriving DecidableEq, Repr

/-- Models encoding/json.Unmarshal into the Request struct
(src/main.go line 46): a field absent from the JSON object leaves the Go
zero value ("" for strings, false for bools). -/
def unmarshalRequest (j : JSONReq) : Request :=
  { command := j.command.getD []
    type := j.type.getD []
    headless := j.headless.getD false
    verbose := j.verbose.getD false
    persistWindow := j.persistWindow.getD false }

/-- Models the non-JSON fallback of src/main.go lines 47-51: the raw line
becomes the command with type "cmd" and headless true. -/
def parseFallback (line : GoStr) : Request :=
  { command := line, type := str "cmd", headless := true,
    verbose := false, persistWindow := false }

/- ---------------------------------------------------------------------
   src/type.go variant (lines 20-148)
   --------------------------------------------------------------------- -/

/-- Models the Request struct of src/type.go lines 20-25 (no
PersistWindow field). -/
structure RequestT where
  command : GoStr
  type : GoStr
  headless : Bool
  verbose : Bool
  deriving DecidableEq, Repr

/-- CreateNewConsole constant of src/type.go line 17. -/
def CreateNewConsole : Nat := 0x00000010

/-- Models the process construction of executeCommand in src/type.go
lines 68-121, identical dispatch logic to src/main.go. -/
def buildSpecT (goos : String) (req : RequestT) : ProcessSpec :=
  if req.headless then
    { args :=
        if req.type = str "powershell" ∨ req.type = str "ps" then
          [str "powershell", str "-Command", req.command]
        else if req.type = str "wsl" then
          [str "wsl", str "--", str "bash", str "-c", req.command]
        else
          [str "cmd", str "/C", req.command],
      hideWindow := true, creationFlags := 0 }
  else if goos = "windows" then
    { args :=
        if req.type = str "powershell" ∨ req.type = str "ps" then
          [str "powershell", str "-NoExit", str "-Command", req.command]
        else if req.type = str "wsl" then
          [str "cmd", str "/C", str "start", str "wsl", str "--", str "bash", str "-c",
            req.command ++ wslHeadedSuffix]
        else
          [str "cmd", str "/C", str "start", str "cmd", str "/K", req.command],
      hideWindow := false, creationFlags := CreateNewConsole }
  else
    { args :=
        if req.type = str "powershell" ∨ req.type = str "ps" then
          [str "pwsh", str "-Command", req.command]
        else
          [str "bash", str "-c", req.command],
      hideWindow := false, creationFlags := 0 }

/-- First two debug lines of the src/type.go executeCommand
(lines 64-65): no PersistWindow echo. -/
def debugHeaderT (req : RequestT) : GoStr :=
  str "Executing command: " ++ req.command ++ str "\n" ++
  str "Type: " ++ req.type ++ str ", Headless: " ++ boolStr req.headless ++ str "\n"

/-- Models executeCommand of src/type.go (lines 58-148): same dispatch,
but the output is plain string conversion plus TrimSpace, with no UTF-16
normalization. -/
def executeCommandTAux (goos : String) (req : RequestT) (sub : SubResult) : Response × GoStr :=
  let d1 := if req.verbose then debugHeaderT req else []
  let spec := buildSpecT goos req
  let d2 := if req.verbose then d1 ++ modeLine req.headless else d1
  let d3 := if req.verbose then d2 ++ argsLine spec else d2
  let errStr := match sub.err with
    | some e => e
    | none => []
  let d5 := match sub.err with
    | some e =>
      if req.verbose then d3 ++ str "Command failed with error: " ++ e ++ str "\n" else d3
    | none => d3
  let d6 := if req.verbose then
      d5 ++ str "Execution completed in " ++ intStr sub.durationMs ++ str "ms\n"
    else d5
  ({ output := goTrimSpace sub.output, error := errStr, duration := sub.durationMs,
     debug := if req.verbose then d6 else [] }, d6)

/-- The Response of the src/type.go executeCommand. -/
def executeCommandT (goos : String) (req : RequestT) (sub : SubResult) : Response :=
  (executeCommandTAux goos req sub).1

/- ---------------------------------------------------------------------
   Reference definitions taken from the specification wording, for the
   claims that compare the code against the spec text.
   --------------------------------------------------------------------- -/

/-- Spec step 1 of the is_utf16 classifier: the first two bytes are the
UTF-16 LE mark 0xFF,0xFE or the BE mark 0xFE,0xFF. -/
def startsWithUTF16BOM : List Nat → Bool
  | a :: b :: _ => decide ((a = 0xFF ∧ b = 0xFE) ∨ (a = 0xFE ∧ b = 0xFF))
  | _ => false

/-- Position-indexed scan counting the zero bytes at odd 0-indexed
positions, as the spec words the heuristic. -/
def specOddZeroCountAux (pos : Nat) : List Nat → Nat
  | [] => 0
  | b :: rest => (if pos % 2 = 1 ∧ b = 0 then 1 else 0) + specOddZeroCountAux (pos + 1) rest

/-- Count of zero bytes at odd (0-indexed) positions of a byte list. -/
def specOddZeroCount (data : List Nat) : Nat := specOddZeroCountAux 0 data

/-- The three-step reference classifier as the spec states it: BOM is
authoritative; otherwise for even length greater than 10 classify by the
zero-odd-byte ratio exceeding 3/10; otherwise not UTF-16. -/
def isUTF16Spec (data : List Nat) : Bool :=
  if startsWithUTF16BOM data then true
  else if data.length % 2 = 0 ∧ 10 < data.length then
    decide (3 * (data.length / 2) < 10 * specOddZeroCount data)
  else false

/-- Standard UTF-16 encoding of a code-point sequence, as the round-trip
claim constructs it: code points beyond the basic plane become surrogate
pairs. -/
def utf16EncodeRef : List Nat → List Nat
  | [] => []
  | r :: rest =>
    (if r < 0x10000 then [r]
     else [0xD800 + (r - 0x10000) / 0x400, 0xDC00 + (r - 0x10000) % 0x400]) ++
    utf16EncodeRef rest

/-- Serializes UTF-16 code units to bytes in the given endianness
(little-endian when le is true). -/
def serializeUnits (le : Bool) : List Nat → List Nat
  | [] => []
  | u :: rest =>
    (if le then [u % 256, u / 256] else [u / 256, u % 256]) ++ serializeUnits le rest

/- ---------------------------------------------------------------------
   Helper lemmas
   --------------------------------------------------------------------- -/

/-- Two-step structural induction on byte lists, matching the pairwise
recursions above. -/
theorem twoStepInd (P : List Nat → Prop) (h0 : P []) (h1 : ∀ a, P [a])
    (h2 : ∀ a b l, P l → P (a :: b :: l)) : ∀ l, P l
  | [] => h0
  | [a] => h1 a
  | a :: b :: l => h2 a b l (twoStepInd P h0 h1 h2 l)

/-- The pairwise null count of the source loop agrees with the
position-indexed count started at any even position. -/
theorem specOddZeroCountAux_even (l : List Nat) :
    ∀ k, specOddZeroCountAux (2 * k) l = oddNullCount l := by
  induction l using twoStepInd with
  | h0 => intro k; rfl
  | h1 a =>
    intro k
    simp only [specOddZeroCountAux, oddNullCount]
    have : 2 * k % 2 = 0 := by omega
    simp [this]
  | h2 a b l ih =>
    intro k
    simp only [specOddZeroCountAux, oddNullCount]
    have he : 2 * k % 2 = 0 := by omega
    have ho : (2 * k + 1) % 2 = 1 := by omega
    have h2k : 2 * k + 1 + 1 = 2 * (k + 1) := by omega
    simp only [he, ho, h2k, ih (k + 1)]
    simp

/-- The source loop count equals the spec count of zero bytes at odd
positions. -/
theorem oddNullCount_eq_spec (l : List Nat) : oddNullCount l = specOddZeroCount l := by
  have := specOddZeroCountAux_even l 0
  simpa [specOddZeroCount] using this.symm

/- ---------------------------------------------------------------------
   C3 and C4
   --------------------------------------------------------------------- -/

/-- C3: isUTF16 equals the spec's three-step reference classifier: a
leading UTF-16 BOM is authoritative regardless of subsequent content;
otherwise, for even length greater than 10, classify by the count of zero
bytes at odd 0-indexed positions divided by length/2 exceeding 0.3;
otherwise (odd length, or even length at most 10, without a BOM) not
UTF-16. -/
theorem c3_isUTF16_matches_reference (data : List Nat) : isUTF16 data = isUTF16Spec data := by
  match data with
  | [] => rfl
  | [a] => simp [isUTF16, isUTF16Spec, startsWithUTF16BOM]
  | a :: b :: t =>
    by_cases h1 : a = 0xFF ∧ b = 0xFE
    · simp [isUTF16, isUTF16Spec, startsWithUTF16BOM, h1]
    · by_cases h2 : a = 0xFE ∧ b = 0xFF
      · simp [isUTF16, isUTF16Spec, startsWithUTF16BOM, h1, h2]
      · simp [isUTF16, isUTF16Spec, startsWithUTF16BOM, h1, h2, oddNullCount_eq_spec]

/-- C4: for every byte sequence whose remaining length after stripping a
leading UTF-16 BOM (if present) is odd, decodeUTF16 returns the remaining
bytes unchanged (plain Go string conversion).  decodeUTF16 is a total
function, so the decode never fails or crashes. -/
theorem c4_decodeUTF16_odd_passthrough (data : List Nat)
    (h : (data.drop (bomInfo data).1).length % 2 = 1) :
    decodeUTF16 data = data.drop (bomInfo data).1 := by
  simp only [decodeUTF16]
  rw [if_pos (by omega)]

/-- C4 witness: the BOM-prefixed three-byte input FF FE 41 has odd
remaining length and decodes to the pass-through byte 41. -/
theorem c4_witness :
    ([0xFF, 0xFE, 0x41].drop (bomInfo [0xFF, 0xFE, 0x41]).1).length % 2 = 1 ∧
    decodeUTF16 [0xFF, 0xFE, 0x41] = [0xFF, 0xFE, 0x41].drop (bomInfo [0xFF, 0xFE, 0x41]).1 :=
  ⟨by decide, c4_decodeUTF16_odd_passthrough _ (by decide)⟩


theorem utf16Decode_nil : utf16Decode [] = [] := rfl

theorem utf16Decode_one (r : Nat) :
    utf16Decode [r] = if r < 0xD800 ∨ 0xE000 ≤ r then [r] else [0xFFFD] := rfl

theorem utf16Decode_cons₂ (r r2 : Nat) (rest : List Nat) :
    utf16Decode (r :: r2 :: rest) =
      if r < 0xD800 ∨ 0xE000 ≤ r then r :: utf16Decode (r2 :: rest)
      else if r < 0xDC00 ∧ 0xDC00 ≤ r2 ∧ r2 < 0xE000 then
        (0x10000 + (r - 0xD800) * 0x400 + (r2 - 0xDC00)) :: utf16Decode rest
      else 0xFFFD :: utf16Decode (r2 :: rest) := rfl

theorem pairUnits_nil (le : Bool) : pairUnits le [] = [] := rfl

theorem pairUnits_cons₂ (le : Bool) (a b : Nat) (r : List Nat) :
    pairUnits le (a :: b :: r) =
      (if le then a + b * 256 else b + a * 256) :: pairUnits le r := rfl

theorem serializeUnits_cons (le : Bool) (u : Nat) (r : List Nat) :
    serializeUnits le (u :: r) =
      (if le then [u % 256, u / 256] else [u / 256, u % 256]) ++ serializeUnits le r := rfl

theorem pairUnits_serialize (le : Bool) (us : List Nat) :
    pairUnits le (serializeUnits le us) = us := by
  induction us with
  | nil => cases le <;> rfl
  | cons u rest ih =>
    cases le
    · rw [serializeUnits_cons]
      simp only [if_false, Bool.false_eq_true, List.cons_append, List.nil_append]
      rw [pairUnits_cons₂]
      simp only [if_false, Bool.false_eq_true, ih]
      congr 1
      omega
    · rw [serializeUnits_cons]
      simp only [if_true, List.cons_append, List.nil_append]
      rw [pairUnits_cons₂]
      simp only [if_true, ih]
      congr 1
      omega

theorem serializeUnits_length (le : Bool) (us : List Nat) :
    (serializeUnits le us).length = 2 * us.length := by
  induction us with
  | nil => cases le <;> rfl
  | cons u rest ih =>
    rw [serializeUnits_cons]
    cases le <;> simp [ih] <;> omega

theorem utf16Decode_cons_nonsurr (r : Nat) (l : List Nat)
    (h : r < 0xD800 ∨ 0xE000 ≤ r) :
    utf16Decode (r :: l) = r :: utf16Decode l := by
  cases l with
  | nil => rw [utf16Decode_one, if_pos h, utf16Decode_nil]
  | cons r2 rest => rw [utf16Decode_cons₂, if_pos h]

theorem utf16Decode_surr_pair (hi lo : Nat) (l : List Nat)
    (h1 : 0xD800 ≤ hi) (h2 : hi < 0xDC00) (h3 : 0xDC00 ≤ lo) (h4 : lo < 0xE000) :
    utf16Decode (hi :: lo :: l) =
      (0x10000 + (hi - 0xD800) * 0x400 + (lo - 0xDC00)) :: utf16Decode l := by
  rw [utf16Decode_cons₂, if_neg (by omega), if_pos ⟨h2, h3, h4⟩]

theorem utf16EncodeRef_cons (r : Nat) (rest : List Nat) :
    utf16EncodeRef (r :: rest) =
      (if r < 0x10000 then [r]
       else [0xD800 + (r - 0x10000) / 0x400, 0xDC00 + (r - 0x10000) % 0x400]) ++
      utf16EncodeRef rest := rfl

theorem utf16Decode_encodeRef (s : List Nat)
    (h : ∀ r ∈ s, r < 0x110000 ∧ (r < 0xD800 ∨ 0xE000 ≤ r)) :
    utf16Decode (utf16EncodeRef s) = s := by
  induction s with
  | nil => rfl
  | cons r rest ih =>
    obtain ⟨hb, hsur⟩ := h r (by simp)
    have hrest : ∀ x ∈ rest, x < 0x110000 ∧ (x < 0xD800 ∨ 0xE000 ≤ x) :=
      fun x hx => h x (by simp [hx])
    by_cases hsmall : r < 0x10000
    · rw [utf16EncodeRef_cons, if_pos hsmall, List.singleton_append,
        utf16Decode_cons_nonsurr r _ hsur, ih hrest]
    · have hhi1 : 0xD800 ≤ 0xD800 + (r - 0x10000) / 0x400 := by omega
      have hhi2 : 0xD800 + (r - 0x10000) / 0x400 < 0xDC00 := by omega
      have hlo1 : 0xDC00 ≤ 0xDC00 + (r - 0x10000) % 0x400 := by omega
      have hlo2 : 0xDC00 + (r - 0x10000) % 0x400 < 0xE000 := by omega
      have hval : 0x10000 + (0xD800 + (r - 0x10000) / 0x400 - 0xD800) * 0x400 +
          (0xDC00 + (r - 0x10000) % 0x400 - 0xDC00) = r := by omega
      rw [utf16EncodeRef_cons, if_neg hsmall, List.cons_append, List.cons_append,
        List.nil_append]
      rw [utf16Decode_surr_pair _ _ _ hhi1 hhi2 hlo1 hlo2, ih hrest, hval]

/-- Without a leading BOM, decodeUTF16 starts at byte 0 and assumes
little-endian. -/
theorem bomInfo_noBOM (d : List Nat) (h : startsWithUTF16BOM d = false) :
    bomInfo d = (0, true) := by
  match d with
  | [] => rfl
  | [a] => rfl
  | a :: b :: t =>
    simp only [startsWithUTF16BOM, decide_eq_false_iff_not, not_or] at h
    simp only [bomInfo]
    rw [if_neg h.1, if_neg h.2]

/-- C5: encoding a text (a sequence of Unicode code points, surrogate
pairs included for code points beyond the basic plane) to UTF-16 LE bytes
with a leading 0xFF,0xFE BOM and applying decodeUTF16 reproduces the
original string exactly (its Go UTF-8 byte content); with a 0xFE,0xFF BOM
the bytes decode big-endian to the same string; and for BOM-less data
decodeUTF16 behaves exactly as if the little-endian BOM were present. -/
theorem c5_decodeUTF16_roundtrip (s : List Nat)
    (h : ∀ r ∈ s, r < 0x110000 ∧ (r < 0xD800 ∨ 0xE000 ≤ r)) :
    decodeUTF16 (0xFF :: 0xFE :: serializeUnits true (utf16EncodeRef s)) = utf8Encode s ∧
    decodeUTF16 (0xFE :: 0xFF :: serializeUnits false (utf16EncodeRef s)) = utf8Encode s ∧
    ∀ d, startsWithUTF16BOM d = false →
      decodeUTF16 d = decodeUTF16 (0xFF :: 0xFE :: d) := by
  refine ⟨?_, ?_, ?_⟩
  · have hb : bomInfo (0xFF :: 0xFE :: serializeUnits true (utf16EncodeRef s)) =
        (2, true) := rfl
    have hlen := serializeUnits_length true (utf16EncodeRef s)
    simp only [decodeUTF16, hb, List.drop_succ_cons, List.drop_zero]
    rw [if_neg (by omega), pairUnits_serialize, utf16Decode_encodeRef s h]
  · have hb : bomInfo (0xFE :: 0xFF :: serializeUnits false (utf16EncodeRef s)) =
        (2, false) := rfl
    have hlen := serializeUnits_length false (utf16EncodeRef s)
    simp only [decodeUTF16, hb, List.drop_succ_cons, List.drop_zero]
    rw [if_neg (by omega), pairUnits_serialize, utf16Decode_encodeRef s h]
  · intro d hd
    have h1 : bomInfo d = (0, true) := bomInfo_noBOM d hd
    have h2 : bomInfo (0xFF :: 0xFE :: d) = (2, true) := rfl
    simp only [decodeUTF16, h1, h2, List.drop_zero, List.drop_succ_cons]

/-- C5 witness: the text "Hi😀" (code points 48, 69, 1F600, the last
needing a surrogate pair) round-trips through both BOM forms, and the
BOM-less bytes 68 00 decode as if LE-BOM-prefixed. -/
theorem c5_witness :
    decodeUTF16 (0xFF :: 0xFE :: serializeUnits true (utf16EncodeRef [0x48, 0x69, 0x1F600])) =
      utf8Encode [0x48, 0x69, 0x1F600] ∧
    decodeUTF16 (0xFE :: 0xFF :: serializeUnits false (utf16EncodeRef [0x48, 0x69, 0x1F600])) =
      utf8Encode [0x48, 0x69, 0x1F600] ∧
    decodeUTF16 [0x68, 0x00] = decodeUTF16 (0xFF :: 0xFE :: [0x68, 0x00]) :=
  ⟨(c5_decodeUTF16_roundtrip [0x48, 0x69, 0x1F600] (by decide)).1,
   (c5_decodeUTF16_roundtrip [0x48, 0x69, 0x1F600] (by decide)).2.1,
   (c5_decodeUTF16_roundtrip [0x48, 0x69, 0x1F600] (by decide)).2.2 [0x68, 0x00] (by decide)⟩

/- ---------------------------------------------------------------------
   Dispatcher lemmas
   --------------------------------------------------------------------- -/

/-- With verbose off, processOutput leaves the debug builder untouched. -/
theorem processOutput_snd_not_verbose (data : List Nat) (d : GoStr) :
    (processOutput data false d).2 = d := by
  simp only [processOutput, Bool.false_eq_true, if_false]
  split
  · rfl
  · split <;> rfl

/-- Appending on the right preserves a fixed left prefix. -/
theorem exists_suffix_append (p : GoStr) (d : GoStr) (y : GoStr)
    (h : ∃ x, d = p ++ x) : ∃ x, d ++ y = p ++ x := by
  obtain ⟨x, rfl⟩ := h
  exact ⟨x ++ y, by rw [List.append_assoc]⟩

/-- processOutput only ever appends to the debug builder, so a left
prefix of the builder survives it. -/
theorem processOutput_debug_ext (data : List Nat) (v : Bool) (d p : GoStr)
    (h : ∃ x, d = p ++ x) : ∃ x, (processOutput data v d).2 = p ++ x := by
  simp only [processOutput]
  split
  · exact h
  · split
    · split
      · exact exists_suffix_append p d _ h
      · exact h
    · split
      · exact exists_suffix_append p d _ h
      · exact h

/-- C8: for every request and subprocess result, Response.output is the
combined output bytes, UTF-16-decoded when isUTF16 classifies them as
UTF-16, with white space trimmed from both ends of the normalized text. -/
theorem c8_output_normalized_trimmed (goos : String) (req : Request) (sub : SubResult) :
    (executeCommand goos req sub).output =
      goTrimSpace (if isUTF16 sub.output then decodeUTF16 sub.output else sub.output) := by
  simp only [executeCommand, executeCommandAux]
  by_cases h0 : sub.output.length = 0
  · have he : sub.output = [] := List.length_eq_zero.mp h0
    simp [processOutput, he, isUTF16]
  · by_cases hu : isUTF16 sub.output
    · simp [processOutput, h0, hu]
    · simp [processOutput, h0, hu]

/-- C7: a subprocess error never escapes executeCommand: it is returned
as Response.error text, while the output and duration fields are exactly
what they would have been without the error. -/
theorem c7_error_capture (goos : String) (req : Request) (sub : SubResult) (e : GoStr)
    (h : sub.err = some e) :
    (executeCommand goos req sub).error = e ∧
    (executeCommand goos req sub).output =
      (executeCommand goos req { sub with err := none }).output ∧
    (executeCommand goos req sub).duration =
      (executeCommand goos req { sub with err := none }).duration := by
  refine ⟨?_, ?_, ?_⟩ <;> simp [executeCommand, executeCommandAux, h]

/-- C7 witness: a failing command with captured error text exit status 1
still yields a Response with that error and the error-free output and
duration. -/
theorem c7_witness :
    (executeCommand "linux"
      { command := str "false", type := [], headless := true, verbose := false,
        persistWindow := false }
      { output := [0x6F, 0x6F], err := some (str "exit status 1"), durationMs := 7 }).error =
      str "exit status 1" ∧
    (executeCommand "linux"
      { command := str "false", type := [], headless := true, verbose := false,
        persistWindow := false }
      { output := [0x6F, 0x6F], err := some (str "exit status 1"), durationMs := 7 }).output =
      (executeCommand "linux"
        { command := str "false", type := [], headless := true, verbose := false,
          persistWindow := false }
        { output := [0x6F, 0x6F], err := none, durationMs := 7 }).output ∧
    (executeCommand "linux"
      { command := str "false", type := [], headless := true, verbose := false,
        persistWindow := false }
      { output := [0x6F, 0x6F], err := some (str "exit status 1"), durationMs := 7 }).duration =
      (executeCommand "linux"
        { command := str "false", type := [], headless := true, verbose := false,
          persistWindow := false }
        { output := [0x6F, 0x6F], err := none, durationMs := 7 }).duration :=
  c7_error_capture "linux" _ _ _ rfl

/-- With verbose on, the final debug builder contents start with the two
header echo lines. -/
theorem executeCommandAux_debug_shape (goos : String) (req : Request) (sub : SubResult)
    (hv : req.verbose = true) :
    ∃ x, (executeCommandAux goos req sub).2 = debugHeader req ++ x := by
  simp only [executeCommandAux, hv, eq_self_iff_true, if_true]
  have h1 : ∃ x, (debugHeader req : GoStr) = debugHeader req ++ x :=
    ⟨[], (List.append_nil _).symm⟩
  have h2 := exists_suffix_append _ _ (modeLine req.headless) h1
  have h3 := exists_suffix_append _ _ (argsLine (buildSpec goos req)) h2
  have h4 := processOutput_debug_ext sub.output true _ _ h3
  cases herr : sub.err with
  | none =>
    exact exists_suffix_append _ _ _ (exists_suffix_append _ _ _
      (exists_suffix_append _ _ _ h4))
  | some e =>
    exact exists_suffix_append _ _ _ (exists_suffix_append _ _ _
      (exists_suffix_append _ _ _ (exists_suffix_append _ _ _
        (exists_suffix_append _ _ _ (exists_suffix_append _ _ _ h4)))))

/-- When verbose is on, Response.debug is exactly the final debug builder
contents. -/
theorem executeCommand_debug_eq_aux (goos : String) (req : Request) (sub : SubResult)
    (hv : req.verbose = true) :
    (executeCommand goos req sub).debug = (executeCommandAux goos req sub).2 := by
  simp only [executeCommand, executeCommandAux, hv, eq_self_iff_true, if_true]

/-- C6: with verbose=false the debug builder stays empty through the whole
execution (zero tracing, not collected-then-discarded) and Response.debug
is empty; with verbose=true Response.debug is non-empty and contains the
literal command text. -/
theorem c6_verbose_gating (goos : String) (req : Request) (sub : SubResult) :
    (req.verbose = false →
      (executeCommandAux goos req sub).2 = [] ∧ (executeCommand goos req sub).debug = []) ∧
    (req.verbose = true →
      (executeCommand goos req sub).debug ≠ [] ∧
      ∃ pre post, (executeCommand goos req sub).debug = pre ++ req.command ++ post) := by
  constructor
  · intro hv
    cases herr : sub.err <;>
      simp [executeCommand, executeCommandAux, hv, processOutput_snd_not_verbose, herr]
  · intro hv
    obtain ⟨x, hx⟩ := executeCommandAux_debug_shape goos req sub hv
    rw [executeCommand_debug_eq_aux goos req sub hv, hx]
    have h19 : 0 < (str "Executing command: ").length := by decide
    constructor
    · intro hcon
      have hlen : 0 < (debugHeader req ++ x).length := by
        simp only [debugHeader, List.length_append]
        omega
      rw [hcon] at hlen
      exact absurd hlen (by simp)
    · refine ⟨str "Executing command: ",
        str "\n" ++ (str "Type: " ++ (req.type ++ (str ", Headless: " ++
          (boolStr req.headless ++ (str ", PersistWindow: " ++
            (boolStr req.persistWindow ++ (str "\n" ++ x))))))), ?_⟩
      simp only [debugHeader, List.append_assoc]

/-- C6 witness: with verbose off nothing is traced and debug is empty;
with verbose on debug is non-empty and contains the command echo hi. -/
theorem c6_witness :
    ((executeCommandAux "linux"
        { command := str "echo hi", type := [], headless := true, verbose := false,
          persistWindow := false }
        { output := [0x68], err := none, durationMs := 3 }).2 = [] ∧
      (executeCommand "linux"
        { command := str "echo hi", type := [], headless := true, verbose := false,
          persistWindow := false }
        { output := [0x68], err := none, durationMs := 3 }).debug = []) ∧
    ((executeCommand "linux"
        { command := str "echo hi", type := [], headless := true, verbose := true,
          persistWindow := false }
        { output := [0x68], err := none, durationMs := 3 }).debug ≠ [] ∧
      ∃ pre post,
        (executeCommand "linux"
          { command := str "echo hi", type := [], headless := true, verbose := true,
            persistWindow := false }
          { output := [0x68], err := none, durationMs := 3 }).debug =
          pre ++ str "echo hi" ++ post) :=
  ⟨(c6_verbose_gating "linux"
      { command := str "echo hi", type := [], headless := true, verbose := false,
        persistWindow := false }
      { output := [0x68], err := none, durationMs := 3 }).1 rfl,
   (c6_verbose_gating "linux"
      { command := str "echo hi", type := [], headless := true, verbose := true,
        persistWindow := false }
      { output := [0x68], err := none, durationMs := 3 }).2 rfl⟩

/-- C9: PersistWindow does not interfere with execution: the process
invocation never depends on it, the Response with verbose off is
identical for any PersistWindow value, and with verbose on PersistWindow
only appears echoed in the debug trace. -/
theorem c9_persistWindow_noninterference (goos : String) (req : Request) (sub : SubResult)
    (b : Bool) :
    buildSpec goos req = buildSpec goos { req with persistWindow := b } ∧
    (req.verbose = false →
      executeCommand goos req sub = executeCommand goos { req with persistWindow := b } sub) ∧
    (req.verbose = true →
      ∃ pre post,
        (executeCommandAux goos req sub).2 = pre ++ boolStr req.persistWindow ++ post) := by
  refine ⟨rfl, ?_, ?_⟩
  · intro hv
    cases herr : sub.err <;>
      simp [executeCommand, executeCommandAux, hv, herr]
  · intro hv
    obtain ⟨x, hx⟩ := executeCommandAux_debug_shape goos req sub hv
    rw [hx]
    refine ⟨str "Executing command: " ++ (req.command ++ (str "\n" ++ (str "Type: " ++
        (req.type ++ (str ", Headless: " ++ (boolStr req.headless ++
          str ", PersistWindow: ")))))),
      str "\n" ++ x, ?_⟩
    simp only [debugHeader, List.append_assoc]

/-- C9 witness: flipping PersistWindow on a concrete quiet request leaves
the process invocation and Response unchanged, and a verbose request
echoes its PersistWindow value in the debug trace. -/
theorem c9_witness :
    buildSpec "windows"
      { command := str "dir", type := [], headless := false, verbose := false,
        persistWindow := false } =
      buildSpec "windows"
        { command := str "dir", type := [], headless := false, verbose := false,
          persistWindow := true } ∧
    executeCommand "windows"
      { command := str "dir", type := [], headless := false, verbose := false,
        persistWindow := false }
      { output := [0x61], err := none, durationMs := 2 } =
      executeCommand "windows"
        { command := str "dir", type := [], headless := false, verbose := false,
          persistWindow := true }
        { output := [0x61], err := none, durationMs := 2 } ∧
    ∃ pre post,
      (executeCommandAux "windows"
        { command := str "dir", type := [], headless := false, verbose := true,
          persistWindow := false }
        { output := [0x61], err := none, durationMs := 2 }).2 =
        pre ++ boolStr false ++ post :=
  ⟨(c9_persistWindow_noninterference "windows"
      { command := str "dir", type := [], headless := false, verbose := false,
        persistWindow := false }
      { output := [0x61], err := none, durationMs := 2 } true).1,
   (c9_persistWindow_noninterference "windows"
      { command := str "dir", type := [], headless := false, verbose := false,
        persistWindow := false }
      { output := [0x61], err := none, durationMs := 2 } true).2.1 rfl,
   (c9_persistWindow_noninterference "windows"
      { command := str "dir", type := [], headless := false, verbose := true,
        persistWindow := false }
      { output := [0x61], err := none, durationMs := 2 } true).2.2 rfl⟩

/-- C10: with verbose off and combined output not classified as UTF-16,
the normalizing executeCommand of src/main.go and the plain executeCommand
of src/type.go return equal Responses for the same subprocess result. -/
theorem c10_variant_refinement (goos : String) (req : Request) (sub : SubResult)
    (hv : req.verbose = false) (hu : isUTF16 sub.output = false) :
    executeCommand goos req sub =
      executeCommandT goos
        { command := req.command, type := req.type, headless := req.headless,
          verbose := req.verbose } sub := by
  have hpr : (processOutput sub.output false ([] : GoStr)).1 = sub.output := by
    simp only [processOutput]
    by_cases h0 : sub.output.length = 0
    · rw [if_pos h0]
      exact (List.length_eq_zero.mp h0).symm
    · rw [if_neg h0, if_neg (by simp [hu])]
  cases herr : sub.err <;>
    simp [executeCommand, executeCommandAux, executeCommandT, executeCommandTAux,
      hv, hpr, herr]

/-- C10 witness: a concrete quiet request with short non-UTF-16 output
yields identical Responses from both program variants. -/
theorem c10_witness :
    executeCommand "linux"
      { command := str "echo hi", type := [], headless := true, verbose := false,
        persistWindow := false }
      { output := [0x68, 0x69, 0x0A], err := none, durationMs := 5 } =
      executeCommandT "linux"
        { command := str "echo hi", type := [], headless := true, verbose := false }
        { output := [0x68, 0x69, 0x0A], err := none, durationMs := 5 } :=
  c10_variant_refinement "linux"
    { command := str "echo hi", type := [], headless := true, verbose := false,
      persistWindow := false }
    { output := [0x68, 0x69, 0x0A], err := none, durationMs := 5 } rfl (by decide)

/-- C1 counterexample: for the syntactically valid JSON line with only a
command field, the parsed headless flag is false (the Go zero value), not
true, and the dispatch differs from the explicit type cmd, headless true
request: on Windows the former builds a headed start cmd /K invocation,
the latter a hidden cmd /C one. -/
theorem c1_counterexample :
    (unmarshalRequest
      { command := some (str "echo hi"), type := none, headless := none,
        verbose := none, persistWindow := none }).headless = false ∧
    buildSpec "windows"
      (unmarshalRequest
        { command := some (str "echo hi"), type := none, headless := none,
          verbose := none, persistWindow := none }) ≠
      buildSpec "windows"
        { command := str "echo hi", type := str "cmd", headless := true,
          verbose := false, persistWindow := false } := by
  decide

/-- C1 amended: on a syntactically valid JSON line an absent headless
field defaults to false (the Go zero value), so a request with type and
headless omitted dispatches exactly like one with type cmd and headless
false explicitly set, and (for verbose=false requests) returns the same
Response; the headless=true default applies only to lines that fail to
parse as JSON. -/
theorem c1_headless_default_amended (j : JSONReq) (goos : String) (sub : SubResult)
    (line : GoStr) (ht : j.type = none) (hh : j.headless = none) :
    (unmarshalRequest j).headless = false ∧
    buildSpec goos (unmarshalRequest j) =
      buildSpec goos
        (unmarshalRequest { j with type := some (str "cmd"), headless := some false }) ∧
    ((unmarshalRequest j).verbose = false →
      executeCommand goos (unmarshalRequest j) sub =
        executeCommand goos
          (unmarshalRequest { j with type := some (str "cmd"), headless := some false }) sub) ∧
    (parseFallback line).headless = true := by
  refine ⟨?_, ?_, ?_, rfl⟩
  · simp [unmarshalRequest, hh]
  · simp only [unmarshalRequest, ht, hh, Option.getD_none, Option.getD_some]
    rfl
  · intro hv
    simp only [unmarshalRequest, ht, hh, Option.getD_none, Option.getD_some] at hv ⊢
    cases herr : sub.err <;>
      simp [executeCommand, executeCommandAux, hv, herr]

/-- C1 witness: concrete instantiation of the amended claim at a JSON
object with only command and verbose false, host linux. -/
theorem c1_witness :
    (unmarshalRequest
      { command := some (str "pwd"), type := none, headless := none,
        verbose := some false, persistWindow := none }).headless = false ∧
    buildSpec "linux"
      (unmarshalRequest
        { command := some (str "pwd"), type := none, headless := none,
          verbose := some false, persistWindow := none }) =
      buildSpec "linux"
        (unmarshalRequest
          { command := some (str "pwd"), type := some (str "cmd"), headless := some false,
            verbose := some false, persistWindow := none }) ∧
    executeCommand "linux"
      (unmarshalRequest
        { command := some (str "pwd"), type := none, headless := none,
          verbose := some false, persistWindow := none })
      { output := [0x2F], err := none, durationMs := 1 } =
      executeCommand "linux"
        (unmarshalRequest
          { command := some (str "pwd"), type := some (str "cmd"), headless := some false,
            verbose := some false, persistWindow := none })
        { output := [0x2F], err := none, durationMs := 1 } ∧
    (parseFallback (str "pwd")).headless = true :=
  ⟨(c1_headless_default_amended
      { command := some (str "pwd"), type := none, headless := none,
        verbose := some false, persistWindow := none }
      "linux" { output := [0x2F], err := none, durationMs := 1 } (str "pwd") rfl rfl).1,
   (c1_headless_default_amended
      { command := some (str "pwd"), type := none, headless := none,
        verbose := some false, persistWindow := none }
      "linux" { output := [0x2F], err := none, durationMs := 1 } (str "pwd") rfl rfl).2.1,
   (c1_headless_default_amended
      { command := some (str "pwd"), type := none, headless := none,
        verbose := some false, persistWindow := none }
      "linux" { output := [0x2F], err := none, durationMs := 1 } (str "pwd") rfl rfl).2.2.1
     (by decide),
   (c1_headless_default_amended
      { command := some (str "pwd"), type := none, headless := none,
        verbose := some false, persistWindow := none }
      "linux" { output := [0x2F], err := none, durationMs := 1 } (str "pwd") rfl rfl).2.2.2⟩

/-- C2 counterexample: a headless request with empty type on host linux is
dispatched to cmd /C, not to bash -c as the claim states for non-Windows
hosts. -/
theorem c2_counterexample :
    (buildSpec "linux"
      { command := str "echo hi", type := [], headless := true, verbose := false,
        persistWindow := false }).args = [str "cmd", str "/C", str "echo hi"] ∧
    (buildSpec "linux"
      { command := str "echo hi", type := [], headless := true, verbose := false,
        persistWindow := false }).args ≠ [str "bash", str "-c", str "echo hi"] := by
  decide

/-- C2 amended: for every request whose type is neither powershell/ps nor
wsl (including empty or unrecognized), the dispatcher never errors and
invokes cmd /C <command> whenever the request is headless, on every host
OS; in headed mode it invokes cmd /C start cmd /K <command> on Windows
and bash -c <command> on any other host OS. -/
theorem c2_default_shell_amended (goos : String) (req : Request)
    (h1 : req.type ≠ str "powershell") (h2 : req.type ≠ str "ps")
    (h3 : req.type ≠ str "wsl") :
    (buildSpec goos req).args =
      if req.headless then [str "cmd", str "/C", req.command]
      else if goos = "windows" then
        [str "cmd", str "/C", str "start", str "cmd", str "/K", req.command]
      else [str "bash", str "-c", req.command] := by
  by_cases hh : req.headless <;> by_cases hw : goos = "windows" <;>
    simp [buildSpec, hh, hw, h1, h2, h3]

/-- C2 witness: an unrecognized type fish on host linux, headless,
dispatches to cmd /C. -/
theorem c2_witness :
    (buildSpec "linux"
      { command := str "ls", type := str "fish", headless := true, verbose := false,
        persistWindow := false }).args = [str "cmd", str "/C", str "ls"] := by
  have h := c2_default_shell_amended "linux"
    { command := str "ls", type := str "fish", headless := true, verbose := false,
      persistWindow := false } (by decide) (by decide) (by decide)
  simpa using h
